import Mathlib

/-!
Verification development for the rentswatch-api geospatial statistics service.

The repository exposes a city/statistics HTTP API (`city.controller.js`).  The
controller composes a listing store with a geo filter (`docs.center`), a
regression-statistics calculator (`docs.getStats`) and a decile calculator
(`docs.deciles`).  The calculators live in `doc.model`, which is not part of the
sources at hand; they are modelled here from the specification (each such
definition is marked `Modelled from the spec:`).  The controller logic
(parameter clamping, room-filter parsing, ranking, response building) is
embedded directly from `city.controller.js`.

Numbers are embedded as rationals (exact arithmetic in place of IEEE floats);
standard errors and the inequality index are carried as their squares, since
their defining formulas take a square root that has no exact rational value.
-/

/-- Listing record, as described in the data model section of the spec:
coordinates in decimal degrees, living space and total rent positive numbers,
optional room count and optional neighborhood identifier. -/
structure Listing where
  latitude : ℚ
  longitude : ℚ
  livingSpace : ℚ
  totalRent : ℚ
  rooms : Option ℚ
  neighborhood : Option String
deriving DecidableEq

/-- Region query: center, radius in km, living-space bounds, optional room
filter, optional result cap. -/
structure RegionQuery where
  latitude : ℚ
  longitude : ℚ
  radiusKm : ℚ
  minLivingSpace : ℚ
  maxLivingSpace : ℚ
  rooms : Option (List ℚ)
  limit : Option ℕ
deriving DecidableEq

/-- Degrees to radians. -/
noncomputable def degToRad (d : ℚ) : ℝ := (d : ℝ) * Real.pi / 180

/-- Modelled from the spec: the geo filter of `doc.model` (absent from the
sources) mandates the haversine great-circle distance between a listing and
the query center.  Earth radius 6371 km. -/
noncomputable def haversineKm (lat1 lng1 lat2 lng2 : ℚ) : ℝ :=
  Real.sin ((degToRad lat2 - degToRad lat1) / 2) ^ 2 +
      Real.cos (degToRad lat1) * Real.cos (degToRad lat2) *
        Real.sin ((degToRad lng2 - degToRad lng1) / 2) ^ 2
    |> fun a => 2 * 6371 * Real.arcsin (Real.sqrt a)

/-- Room filter test: a null filter accepts everything; an active filter
accepts exactly the listings whose (known) room count is a member, and
excludes listings with unknown rooms. -/
def roomsMatch (qrooms : Option (List ℚ)) (lrooms : Option ℚ) : Prop :=
  match qrooms with
  | none => True
  | some rs =>
    match lrooms with
    | none => False
    | some r => r ∈ rs

/-- Predicate deciding membership of a listing in a region selection:
haversine distance within the radius, and the attribute filters hold
conjunctively. -/
def matchesQ (q : RegionQuery) (l : Listing) : Prop :=
  haversineKm l.latitude l.longitude q.latitude q.longitude ≤ (q.radiusKm : ℝ) ∧
  q.minLivingSpace ≤ l.livingSpace ∧ l.livingSpace ≤ q.maxLivingSpace ∧
  roomsMatch q.rooms l.rooms

/-- Modelled from the spec: `docs.center` of `doc.model` (absent from the
sources) selects the listings inside the circular region that pass the
attribute filters; a limit, when provided and positive, truncates the result
count in store order, while a limit of 0 or an absent limit means no cap. -/
noncomputable def select (store : List Listing) (q : RegionQuery) : List Listing :=
  let sel := store.filter fun l => @decide (matchesQ q l) (Classical.propDecidable _)
  match q.limit with
  | some n => if 0 < n then sel.take n else sel
  | none => sel

/-- Living-space values of a selection. -/
def spaces (s : List Listing) : List ℚ := s.map fun l => l.livingSpace

/-- Boolean test that every element of a list equals every other. -/
def allEqual (xs : List ℚ) : Bool :=
  match xs with
  | [] => true
  | x :: t => t.all fun y => y == x

/-- Degeneracy test for the regression: fewer than 2 listings, or zero
variance in the independent variable (all living spaces identical). -/
def degenerate (s : List Listing) : Bool :=
  decide (s.length < 2) || allEqual (spaces s)

/-- Mean living space of a selection. -/
def spaceMean (s : List Listing) : ℚ :=
  (s.map fun l => l.livingSpace).sum / (s.length : ℚ)

/-- Mean total rent of a selection. -/
def rentMean (s : List Listing) : ℚ :=
  (s.map fun l => l.totalRent).sum / (s.length : ℚ)

/-- Modelled from the spec: the price indicator of `docs.getStats` (absent
from the sources) is the slope of the ordinary-least-squares regression of
total rent on living space with a free intercept, written in the usual
closed form over the elementary sums. -/
def olsSlope (s : List Listing) : ℚ :=
  ((s.length : ℚ) * (s.map fun l => l.livingSpace * l.totalRent).sum -
      (s.map fun l => l.livingSpace).sum * (s.map fun l => l.totalRent).sum) /
  ((s.length : ℚ) * (s.map fun l => l.livingSpace * l.livingSpace).sum -
      (s.map fun l => l.livingSpace).sum * (s.map fun l => l.livingSpace).sum)

/-- Intercept of the same regression. -/
def olsIntercept (s : List Listing) : ℚ := rentMean s - olsSlope s * spaceMean s

/-- Sum of squared regression residuals. -/
def ssr (s : List Listing) : ℚ :=
  (s.map fun l =>
    (l.totalRent - (olsSlope s * l.livingSpace + olsIntercept s)) *
    (l.totalRent - (olsSlope s * l.livingSpace + olsIntercept s))).sum

/-- Sum of squared deviations of living space from its mean. -/
def sxxDev (s : List Listing) : ℚ :=
  (s.map fun l => (l.livingSpace - spaceMean s) * (l.livingSpace - spaceMean s)).sum

/-- Modelled from the spec: square of the standard error of the slope
estimate, residual variance (with the usual n - 2 degrees of freedom) divided
by the sum of squared deviations of living space from its mean. -/
def stdErrSq (s : List Listing) : ℚ := (ssr s / ((s.length : ℚ) - 2)) / sxxDev s

/-- Distinct neighborhood names present in a selection. -/
def neighborhoodNames (s : List Listing) : List String :=
  (s.filterMap fun l => l.neighborhood).dedup

/-- Listings of a selection belonging to a given neighborhood. -/
def partitionOf (s : List Listing) (nb : String) : List Listing :=
  s.filter fun l => l.neighborhood == some nb

/-- Population variance of a list of rationals. -/
def varianceL (xs : List ℚ) : ℚ :=
  (xs.map fun a => (a - xs.sum / (xs.length : ℚ)) * (a - xs.sum / (xs.length : ℚ))).sum /
    (xs.length : ℚ)

/-- Modelled from the spec: square of the inequality index, the variance of
the per-neighborhood regression slopes over the partitions with enough data
to regress; absent when fewer than 2 partitions have valid averages. -/
def inequalityIndexSq (s : List Listing) : Option ℚ :=
  let avgs := (neighborhoodNames s).filterMap fun nb =>
    if degenerate (partitionOf s nb) then none else some (olsSlope (partitionOf s nb))
  if avgs.length < 2 then none else some (varianceL avgs)

/-- Outcome of the regression-statistics calculator: either a distinguished
insufficient-data condition, or the numeric indicators. -/
inductive StatsOutcome where
  | insufficientData (total : ℕ)
  | valid (total : ℕ) (avgPricePerSqm : ℚ) (stdErrSq : ℚ) (inequalityIndexSq : Option ℚ)
deriving DecidableEq

/-- Modelled from the spec: `docs.getStats` (absent from the sources) reports
the selection size, the regression slope as price indicator, its standard
error and the inequality index, surfacing the degenerate cases as a
distinguished insufficient-data condition instead of fabricating a slope. -/
def getStats (s : List Listing) : StatsOutcome :=
  if degenerate s then .insufficientData s.length
  else .valid s.length (olsSlope s) (stdErrSq s) (inequalityIndexSq s)

/-- Price indicator of an outcome, when present. -/
def avgOf : StatsOutcome → Option ℚ
  | .insufficientData _ => none
  | .valid _ a _ _ => some a

/-- Squared standard error of an outcome, when present. -/
def stdErrSqOf : StatsOutcome → Option ℚ
  | .insufficientData _ => none
  | .valid _ _ e _ => some e

/-- Reference ordinary-least-squares slope, written independently in the
mean-deviation form used by textbook regressions, for comparison with the
indicator reported by the calculator. -/
def refSlope (s : List Listing) : ℚ :=
  (s.map fun l => (l.livingSpace - spaceMean s) * (l.totalRent - rentMean s)).sum /
  (s.map fun l => (l.livingSpace - spaceMean s) * (l.livingSpace - spaceMean s)).sum

/-- Ratio of the mean rent to the mean living space, the indicator the spec
insists is NOT the one reported. -/
def ratioOfMeans (s : List Listing) : ℚ := rentMean s / spaceMean s

/-- Per-listing price per square meter. -/
def pricePerSqm (l : Listing) : ℚ := l.totalRent / l.livingSpace

/-- Ascending sort of the per-listing prices of a selection. -/
def sortedPrices (s : List Listing) : List ℚ :=
  (s.map pricePerSqm).insertionSort fun a b => a ≤ b

/-- Zero-indexed interpolation rank of decile boundary k over n values. -/
def decileRank (n k : ℕ) : ℚ := (k : ℚ) * ((n : ℚ) - 1) / 10

/-- Linear interpolation of a sorted list of values at a fractional rank. -/
def interpAt (v : List ℚ) (r : ℚ) : ℚ :=
  v.getD ⌊r⌋₊ 0 + (r - (⌊r⌋₊ : ℚ)) * (v.getD (⌊r⌋₊ + 1) 0 - v.getD ⌊r⌋₊ 0)

/-- Modelled from the spec: `docs.deciles` (absent from the sources) sorts
the per-listing prices ascending and reports the 9 boundaries interpolated at
ranks k times (n - 1) over 10, with an empty sequence for selections of
fewer than 2 listings. -/
def deciles (s : List Listing) : List ℚ :=
  if s.length < 2 then []
  else (List.range 9).map fun j => interpAt (sortedPrices s) (decileRank s.length (j + 1))

/-- Decile boundary written independently, as the specification phrases it:
the order statistic itself at an integral rank, and otherwise the convex
combination of the two adjacent order statistics. -/
def decileBoundary (v : List ℚ) (n k : ℕ) : ℚ :=
  if ((⌊decileRank n k⌋₊ : ℚ)) = decileRank n k then v.getD ⌊decileRank n k⌋₊ 0
  else
    (1 - (decileRank n k - (⌊decileRank n k⌋₊ : ℚ))) * v.getD ⌊decileRank n k⌋₊ 0 +
      (decileRank n k - (⌊decileRank n k⌋₊ : ℚ)) * v.getD (⌊decileRank n k⌋₊ + 1) 0

/-- Listing constructor used by the concrete test selections: every listing
sits at the same point, with no room count and no neighborhood. -/
def mkListing (space rent : ℚ) : Listing :=
  { latitude := 52, longitude := 13, livingSpace := space, totalRent := rent,
    rooms := none, neighborhood := none }

/-- The 3-listing scenario of the spec: living spaces 50, 60, 70 and total
rents 500, 650, 800, an exact linear relation of slope 15. -/
def example3 : List Listing := [mkListing 50 500, mkListing 60 650, mkListing 70 800]

/-- Single-listing selection. -/
def exampleOne : List Listing := [mkListing 50 500]

/-- Degenerate 2-listing selection with identical living spaces. -/
def exampleEqSpaces : List Listing := [mkListing 50 500, mkListing 50 700]

/-- Numeric query-string parameter as the controller sees it: missing (or
empty, hence falsy), present but not parsing to a number, or parsing to a
number. -/
inductive NumParam where
  | absent
  | nonNumeric
  | num (x : ℚ)
deriving DecidableEq

/-- Radius validation of `exports.geocode` (part_001 lines 239 to 241):
default 20 when absent, 20 when not a number, then clamped by
`Math.min(radius, 20)`. -/
def parseRadius (p : NumParam) : ℚ :=
  min (match p with | .absent => 20 | .nonNumeric => 20 | .num x => x) 20

/-- Minimum-living-space validation (lines 243 to 244): default 0 when
absent or not a number; no clamp. -/
def parseMinLivingSpace (p : NumParam) : ℚ :=
  match p with | .absent => 0 | .nonNumeric => 0 | .num x => x

/-- Maximum-living-space validation (lines 246 to 247): default 200 when
absent or not a number; no clamp. -/
def parseMaxLivingSpace (p : NumParam) : ℚ :=
  match p with | .absent => 200 | .nonNumeric => 200 | .num x => x

/-- Room-filter validation (lines 249 to 254).  The `no_rooms` parameter is
split on commas; each token is either a number (`some x`) or NaN after the
`Number` coercion (`none`); the code keeps the numeric tokens and silently
rejects the NaN ones.  An absent parameter means a null filter. -/
def parseNoRooms (p : Option (List (Option ℚ))) : Option (List ℚ) :=
  match p with
  | none => none
  | some toks => some (toks.filterMap id)

/-- Geocode request, carrying the query-string parameters used by
`exports.geocode`.  The `q` parameter is modelled after the coordinate
extraction of line 256: the comma-separated tokens of the text, each either
numeric or NaN. -/
structure GeocodeReq where
  q : Option (List (Option ℚ))
  radius : NumParam
  minLivingSpace : NumParam
  maxLivingSpace : NumParam
  noRooms : Option (List (Option ℚ))
  limit : Option ℕ
deriving DecidableEq

/-- Region query assembled by `exports.geocode` from the validated
parameters, handed to `docs.center`. -/
def buildQuery (lat lng : ℚ) (req : GeocodeReq) : RegionQuery :=
  { latitude := lat, longitude := lng,
    radiusKm := parseRadius req.radius,
    minLivingSpace := parseMinLivingSpace req.minLivingSpace,
    maxLivingSpace := parseMaxLivingSpace req.maxLivingSpace,
    rooms := parseNoRooms req.noRooms,
    limit := req.limit }

/-- Response body of a successful geocode call: the place and the statistics
attached to it. -/
structure GeocodeResult where
  latitude : ℚ
  longitude : ℚ
  radius : ℚ
  stats : StatsOutcome
  deciles : List ℚ
deriving DecidableEq

/-- The `sendCenter` closure of `exports.geocode` (lines 258 to 275): one
call to `docs.center` produces the rows, and the same rows are passed to
`docs.getStats` and then to `docs.deciles` before the response is sent. -/
noncomputable def sendCenter (store : List Listing) (lat lng : ℚ) (req : GeocodeReq) :
    GeocodeResult :=
  let rows := select store (buildQuery lat lng req)
  { latitude := lat, longitude := lng, radius := parseRadius req.radius,
    stats := getStats rows, deciles := deciles rows }

/-- Outcome of the geocode endpoint: a 400 for a missing `q`, a 200 with the
statistics when `q` is a coordinate pair, or delegation to the external OSM
geocoder otherwise (out of scope). -/
inductive GeocodeOutcome where
  | badRequest (msg : String)
  | ok (result : GeocodeResult)
  | externalGeocoding
deriving DecidableEq

/-- The `exports.geocode` handler (lines 236 to 317): reject when `q` is
missing, parse the parameters with their defaults and clamps, and when the
query text is a coordinate pair run `sendCenter` on it. -/
noncomputable def geocode (store : List Listing) (req : GeocodeReq) : GeocodeOutcome :=
  match req.q with
  | none => .badRequest "Missing q parameter."
  | some toks =>
    let latlng := toks.filterMap id
    if latlng.length = 2 then
      .ok (sendCenter store (latlng.getD 0 0) (latlng.getD 1 0) req)
    else .externalGeocoding

/-- Precomputed per-region statistics record as stored in the city
collection, with the ranking-eligibility flag used by `exports.ranking`. -/
structure Region where
  name : String
  avgPricePerSqm : ℚ
  total : ℚ
  inequalityIndex : ℚ
  ranked : Bool
deriving DecidableEq

/-- Closed choice of ranking indicator. -/
inductive Indicator where
  | avgPricePerSqm
  | total
  | inequalityIndex
deriving DecidableEq

/-- Accessor selected by an indicator. -/
def indicatorOf : Indicator → Region → ℚ
  | .avgPricePerSqm, c => c.avgPricePerSqm
  | .total, c => c.total
  | .inequalityIndex, c => c.inequalityIndex

/-- Indicator lookup of `exports.ranking` (lines 186 to 187): a parameter
that is not one of the three known names, or is absent, falls back to
`avgPricePerSqm`. -/
def parseIndicator (p : Option String) : Indicator :=
  match p with
  | none => .avgPricePerSqm
  | some s =>
    if s = "avgPricePerSqm" then .avgPricePerSqm
    else if s = "total" then .total
    else if s = "inequalityIndex" then .inequalityIndex
    else .avgPricePerSqm

/-- The `exports.ranking` handler (lines 185 to 196): keep the regions
flagged `ranked`, sort them ascending by minus the indicator (that is,
descending by the indicator, with a stable sort as in lodash `sortBy`), and
map each to the pair of its name and indicator value. -/
def ranking (cities : List Region) (p : Option String) : List (String × ℚ) :=
  ((cities.filter fun c => c.ranked).insertionSort
      fun a b => indicatorOf (parseIndicator p) b ≤ indicatorOf (parseIndicator p) a).map
    fun c => (c.name, indicatorOf (parseIndicator p) c)

/-- City record of the shared collection as the index and search handlers
see it: the statistics themselves plus the three payload fields that the
response strips (`months`, `neighborhoods`, `deciles`).  An `Option` field
models a JS property that `delete` can remove. -/
structure CityObj where
  name : String
  total : ℚ
  avgPricePerSqm : ℚ
  stdErr : ℚ
  inequalityIndex : Option ℚ
  months : Option (List ℚ)
  neighborhoods : Option (List String)
  deciles : Option (List ℚ)
deriving DecidableEq, Inhabited

/-- Heap of city objects; a reference is an index into the heap, mirroring
JS object identity so that mutation through one reference is observable
through the others. -/
def Heap := List CityObj

/-- The lodash `cloneDeep` call (lines 60 and 164): allocate a fresh object
holding a copy of the referenced one and return its reference. -/
def cloneDeep (h : List CityObj) (r : ℕ) : List CityObj × ℕ :=
  (h ++ [h.getD r default], h.length)

/-- Field removal performed on a response city: the `INDEX_EXCLUDE`
properties `months`, `neighborhoods` and `deciles` are deleted (line 15 and
lines 62 and 166). -/
def deleteExcluded (c : CityObj) : CityObj :=
  { c with months := none, neighborhoods := none, deciles := none }

/-- In-place deletion of the excluded properties of the object a reference
points to. -/
def deleteExcludedAt (h : List CityObj) (r : ℕ) : List CityObj :=
  h.set r (deleteExcluded (h.getD r default))

/-- Per-city response step of `exports.index` and `exports.search` (lines
59 to 64 and 163 to 168): deep-clone the city, then delete the excluded
properties from the clone, returning the new heap and the reference sent in
the response. -/
def respondCity (h : List CityObj) (r : ℕ) : List CityObj × ℕ :=
  (deleteExcludedAt (cloneDeep h r).1 (cloneDeep h r).2, (cloneDeep h r).2)

/-- Response mapping over a list of city references, threading the heap. -/
def respondCities (h : List CityObj) (refs : List ℕ) : List CityObj × List ℕ :=
  match refs with
  | [] => (h, [])
  | r :: rest =>
    ((respondCities (respondCity h r).1 rest).1,
      (respondCity h r).2 :: (respondCities (respondCity h r).1 rest).2)

/-- Truthiness of the `neighborhoods` property of a referenced city. -/
def hasNb (h : List CityObj) (r : ℕ) : Bool :=
  ((h.getD r default).neighborhoods).isSome

/-- The `exports.index` handler (lines 46 to 65): optionally keep only the
cities with neighborhoods, slice by the paginator offset and limit, and
build the response objects. -/
def indexOp (h : List CityObj) (store : List ℕ) (useNb : Bool) (off lim : ℕ) :
    List CityObj × List ℕ :=
  respondCities h ((((if useNb then store.filter (hasNb h) else store).drop off).take lim))

/-- The `exports.search` handler (lines 146 to 169): filter by the optional
neighborhoods flag and the fuzzy name match (the fuzzy library is external;
it is abstracted as a predicate on references), slice, and build the
response objects. -/
def searchOp (h : List CityObj) (store : List ℕ) (useNb : Bool) (fz : ℕ → Bool)
    (off lim : ℕ) : List CityObj × List ℕ :=
  respondCities h
    (((store.filter fun r => (!useNb || hasNb h r) && fz r).drop off).take lim)

/-- Listing placed at the query center used by the selection witness. -/
def listingA : Listing := mkListing 50 500

/-- Query centered on the witness listing, 20 km radius, default bounds, no
room filter and no cap. -/
def queryA : RegionQuery :=
  { latitude := 52, longitude := 13, radiusKm := 20, minLivingSpace := 0,
    maxLivingSpace := 200, rooms := none, limit := none }

/-- Geocode request whose room filter consists of one unparsable token, with
a coordinate pair as query text. -/
def req8 : GeocodeReq :=
  { q := some [some 48, some 11], radius := .absent, minLivingSpace := .absent,
    maxLivingSpace := .absent, noRooms := some [none], limit := none }

/-- Region R1 of the ranking scenario. -/
def regionR1 : Region :=
  { name := "R1", avgPricePerSqm := 20, total := 100, inequalityIndex := 1, ranked := true }

/-- Region R2 of the ranking scenario. -/
def regionR2 : Region :=
  { name := "R2", avgPricePerSqm := 15, total := 300, inequalityIndex := 2, ranked := true }

/-- Region R3 of the ranking scenario, not eligible for ranking. -/
def regionR3 : Region :=
  { name := "R3", avgPricePerSqm := 50, total := 400, inequalityIndex := 3, ranked := false }

/-- The three regions of the ranking scenario. -/
def exRegions : List Region := [regionR1, regionR2, regionR3]

/-- City object with all three excluded payload fields present. -/
def cityB : CityObj :=
  { name := "Berlin", total := 1000, avgPricePerSqm := 12, stdErr := 3,
    inequalityIndex := some 2, months := some [1, 2], neighborhoods := some ["Mitte"],
    deciles := some [8, 9, 10] }

/-- Sums of a product of shifted values expand into the elementary sums. -/
theorem sum_map_expand {α : Type} (l : List α) (f g : α → ℚ) (a b : ℚ) :
    (l.map fun x => (f x - a) * (g x - b)).sum =
      (l.map fun x => f x * g x).sum - b * (l.map f).sum - a * (l.map g).sum +
        (l.length : ℚ) * (a * b) := by
  induction l with
  | nil => simp
  | cons x t ih =>
    simp only [List.map_cons, List.sum_cons, List.length_cons, ih]
    push_cast
    ring

/-- Dividing numerator and denominator of a quotient by the same nonzero
value leaves the quotient unchanged. -/
theorem div_div_same_cancel (a b n : ℚ) (hn : n ≠ 0) : a / n / (b / n) = a / b := by
  rcases eq_or_ne b 0 with hb | hb
  · simp [hb]
  · field_simp

/-- Pure arithmetic form of the slope identity: the mean-deviation quotient
equals the elementary-sums quotient. -/
theorem slope_forms (n A B C D : ℚ) (hn : n ≠ 0) :
    (C - B / n * A - A / n * B + n * (A / n * (B / n))) /
      (D - A / n * A - A / n * A + n * (A / n * (A / n))) =
      (n * C - A * B) / (n * D - A * A) := by
  have h1 : C - B / n * A - A / n * B + n * (A / n * (B / n)) = (n * C - A * B) / n := by
    field_simp
    ring
  have h2 : D - A / n * A - A / n * A + n * (A / n * (A / n)) = (n * D - A * A) / n := by
    field_simp
    ring
  rw [h1, h2, div_div_same_cancel _ _ _ hn]

/-- Boolean equality test over a whole list captures pairwise equality. -/
theorem allEqual_iff (xs : List ℚ) :
    allEqual xs = true ↔ ∀ x ∈ xs, ∀ y ∈ xs, x = y := by
  cases xs with
  | nil => simp [allEqual]
  | cons x t =>
    simp only [allEqual, List.all_eq_true, beq_iff_eq]
    constructor
    · intro hall y hy z hz
      have hy1 : y = x := by
        rcases List.mem_cons.mp hy with h | h
        · exact h
        · exact hall y h
      have hz1 : z = x := by
        rcases List.mem_cons.mp hz with h | h
        · exact h
        · exact hall z h
      rw [hy1, hz1]
    · intro hp y hy
      exact hp y (List.mem_cons_of_mem x hy) x (List.mem_cons_self x t)

/-- Reference mean-deviation slope and the elementary-sums slope of the
calculator agree on every nonempty selection. -/
theorem refSlope_eq_olsSlope (s : List Listing) (hn : (s.length : ℚ) ≠ 0) :
    refSlope s = olsSlope s := by
  have hnum := sum_map_expand s (fun l => l.livingSpace) (fun l => l.totalRent)
    (spaceMean s) (rentMean s)
  have hden := sum_map_expand s (fun l => l.livingSpace) (fun l => l.livingSpace)
    (spaceMean s) (spaceMean s)
  unfold refSlope olsSlope
  simp only [hnum, hden]
  unfold spaceMean rentMean
  exact slope_forms _ _ _ _ _ hn

/-- C1: for every selection with at least 2 distinct livingSpace values, the
avgPricePerSqm reported by the regression calculator equals the slope of the
ordinary-least-squares regression of totalRent (dependent) on livingSpace
(independent) with a free intercept, stated against the independent
mean-deviation reference form; the witness instantiates the 3-listing
scenario where the slope is exactly 15, the squared standard error is
exactly 0, and the slope differs from the ratio of means. -/
theorem getStats_avg_is_ols_slope (s : List Listing)
    (h : ∃ a ∈ s, ∃ b ∈ s, a.livingSpace ≠ b.livingSpace) :
    avgOf (getStats s) = some (refSlope s) := by
  obtain ⟨a, ha, b, hb, hab⟩ := h
  have hlen : 2 ≤ s.length := by
    match s, ha, hb with
    | [], ha, _ => exact absurd ha (List.not_mem_nil a)
    | [c], ha, hb =>
      rw [List.mem_singleton] at ha hb
      exact absurd (by rw [ha, hb]) hab
    | _ :: _ :: _, _, _ =>
      simp only [List.length_cons]
      omega
  have hne : allEqual (spaces s) = false := by
    rcases Bool.eq_false_or_eq_true (allEqual (spaces s)) with ht | hf
    · refine absurd ?_ hab
      exact (allEqual_iff (spaces s)).mp ht _ (List.mem_map_of_mem _ ha) _
        (List.mem_map_of_mem _ hb)
    · exact hf
  have hdeg : degenerate s = false := by
    simp only [degenerate, hne, Bool.or_false, decide_eq_false_iff_not]
    omega
  have hn : (s.length : ℚ) ≠ 0 := Nat.cast_ne_zero.mpr (by omega)
  simp only [getStats, hdeg, Bool.false_eq_true, if_false, avgOf, Option.some.injEq]
  exact (refSlope_eq_olsSlope s hn).symm

/-- Witness for C1 at the 3-listing scenario with livingSpace 50, 60, 70 and
totalRent 500, 650, 800. -/
theorem getStats_avg_is_ols_slope_witness :
    avgOf (getStats example3) = some (refSlope example3) ∧
    refSlope example3 = 15 ∧
    stdErrSqOf (getStats example3) = some 0 ∧
    ratioOfMeans example3 ≠ 15 := by
  have hdeg : degenerate example3 = false := by decide
  refine ⟨getStats_avg_is_ols_slope example3 (by decide), ?_, ?_, ?_⟩
  · norm_num [refSlope, spaceMean, rentMean, example3, mkListing]
  · simp only [getStats, hdeg, Bool.false_eq_true, if_false, stdErrSqOf, Option.some.injEq]
    norm_num [stdErrSq, ssr, sxxDev, olsSlope, olsIntercept, spaceMean, rentMean,
      example3, mkListing]
  · norm_num [ratioOfMeans, rentMean, spaceMean, example3, mkListing]

/-- C3: for every selection of size below 2 or whose livingSpace values are
all equal, the regression calculator reports the distinguished
insufficient-data condition and never a numeric slope. -/
theorem getStats_degenerate_insufficient (s : List Listing)
    (h : s.length < 2 ∨ allEqual (spaces s) = true) :
    getStats s = StatsOutcome.insufficientData s.length ∧ avgOf (getStats s) = none := by
  have hdeg : degenerate s = true := by
    rcases h with h | h
    · simp [degenerate, h]
    · simp [degenerate, h]
  constructor
  · simp [getStats, hdeg]
  · simp [getStats, hdeg, avgOf]

/-- Witness for C3 at a 2-listing selection with identical living spaces. -/
theorem getStats_degenerate_insufficient_witness :
    getStats exampleEqSpaces = StatsOutcome.insufficientData 2 ∧
    avgOf (getStats exampleEqSpaces) = none :=
  getStats_degenerate_insufficient exampleEqSpaces (Or.inr (by decide))

/-- Interpolation at a decile rank coincides with the order-statistic
phrasing of the boundary: the order statistic itself at an integral rank,
the convex combination of the adjacent order statistics otherwise. -/
theorem interpAt_eq_decileBoundary (v : List ℚ) (n k : ℕ) :
    interpAt v (decileRank n k) = decileBoundary v n k := by
  unfold interpAt decileBoundary
  by_cases h : ((⌊decileRank n k⌋₊ : ℚ)) = decileRank n k
  · rw [if_pos h]
    have hf : decileRank n k - (⌊decileRank n k⌋₊ : ℚ) = 0 := by rw [h]; ring
    rw [hf]
    ring
  · rw [if_neg h]
    ring

/-- C4: for every selection with at least two listings the decile calculator
returns exactly 9 boundary values, the boundary for decile k being the
linear interpolation of the ascending per-listing price-per-area order
statistics at 0-indexed rank k times (n - 1) over 10; an empty or
single-element selection yields the empty sequence; and the sorted value
list is an ascending permutation of the per-listing prices. -/
theorem deciles_spec (s : List Listing) :
    (s.length ≤ 1 → deciles s = []) ∧
    (2 ≤ s.length →
      (deciles s).length = 9 ∧
      ∀ k, 1 ≤ k → k ≤ 9 →
        (deciles s)[k - 1]? = some (decileBoundary (sortedPrices s) s.length k)) ∧
    (sortedPrices s).Sorted (· ≤ ·) ∧
    (sortedPrices s).Perm (s.map pricePerSqm) := by
  refine ⟨?_, ?_, ?_, ?_⟩
  · intro h
    rw [deciles, if_pos (by omega)]
  · intro h
    rw [deciles, if_neg (by omega)]
    constructor
    · simp
    · intro k hk1 hk9
      rw [List.getElem?_map, List.getElem?_range (by omega : k - 1 < 9)]
      rw [Option.map_some']
      rw [show k - 1 + 1 = k from by omega]
      exact congrArg some (interpAt_eq_decileBoundary (sortedPrices s) s.length k)
  · exact List.sorted_insertionSort _ _
  · exact List.perm_insertionSort _ _

/-- Witness for C4: the single-element selection yields no deciles, and the
3-listing scenario yields 9 boundaries with the fifth decile given by the
interpolation formula. -/
theorem deciles_spec_witness :
    deciles exampleOne = [] ∧
    (deciles example3).length = 9 ∧
    (deciles example3)[4]? = some (decileBoundary (sortedPrices example3) 3 5) :=
  ⟨(deciles_spec exampleOne).1 (by decide),
   ((deciles_spec example3).2.1 (by decide)).1,
   ((deciles_spec example3).2.1 (by decide)).2 5 (by decide) (by decide)⟩

/-- C2: a listing belongs to the selection of a region query without a
result cap exactly when the haversine distance from its coordinates to the
query center is at most the radius and the attribute filters hold
conjunctively: the space bounds, and membership of the known room count
when the room filter is active (unknown rooms are excluded). -/
theorem select_mem_iff (store : List Listing) (q : RegionQuery) (l : Listing)
    (h : q.limit = none) :
    l ∈ select store q ↔
      l ∈ store ∧
        (haversineKm l.latitude l.longitude q.latitude q.longitude ≤ (q.radiusKm : ℝ) ∧
          q.minLivingSpace ≤ l.livingSpace ∧ l.livingSpace ≤ q.maxLivingSpace ∧
          roomsMatch q.rooms l.rooms) := by
  have hsel : select store q =
      store.filter fun x => @decide (matchesQ q x) (Classical.propDecidable _) := by
    unfold select
    rw [h]
  rw [hsel, List.mem_filter]
  simp only [decide_eq_true_eq]
  exact Iff.rfl

/-- Witness for C2: the query around the witness listing with no cap. -/
theorem select_mem_iff_witness :
    listingA ∈ select [listingA] queryA ↔
      listingA ∈ [listingA] ∧
        (haversineKm listingA.latitude listingA.longitude queryA.latitude queryA.longitude ≤
            (queryA.radiusKm : ℝ) ∧
          queryA.minLivingSpace ≤ listingA.livingSpace ∧
          listingA.livingSpace ≤ queryA.maxLivingSpace ∧
          roomsMatch queryA.rooms listingA.rooms) :=
  select_mem_iff [listingA] queryA listingA rfl

/-- C5: the geocode facade filters once; the statistics part and the deciles
part of the response are both computed from the single selection produced by
that one geo-filter call on the assembled query, with no re-filtering
between the two calls. -/
theorem sendCenter_single_selection (store : List Listing) (lat lng : ℚ)
    (req : GeocodeReq) :
    ∃ rows, rows = select store (buildQuery lat lng req) ∧
      (sendCenter store lat lng req).stats = getStats rows ∧
      (sendCenter store lat lng req).deciles = deciles rows :=
  ⟨select store (buildQuery lat lng req), rfl, rfl, rfl⟩

/-- C6: the radius used for selection is at most 20 km; a requested radius
above 20 is clamped to 20; an absent or non-numeric radius defaults to 20;
an absent minimum living space is taken as 0 and an absent maximum as 200;
and these clamps and defaults never reject a query carrying a query text as
an error. -/
theorem geocode_clamps_and_defaults (lat lng : ℚ) (req : GeocodeReq) :
    (buildQuery lat lng req).radiusKm ≤ 20 ∧
    (∀ x : ℚ, 20 < x → parseRadius (.num x) = 20) ∧
    parseRadius .absent = 20 ∧
    parseRadius .nonNumeric = 20 ∧
    parseMinLivingSpace .absent = 0 ∧
    parseMaxLivingSpace .absent = 200 ∧
    (∀ store m, req.q ≠ none → geocode store req ≠ .badRequest m) := by
  refine ⟨?_, ?_, ?_, ?_, rfl, rfl, ?_⟩
  · exact min_le_right _ 20
  · intro x hx
    exact min_eq_right hx.le
  · exact min_self 20
  · exact min_self 20
  · intro store m hq
    cases hqq : req.q with
    | none => exact absurd hqq hq
    | some toks =>
      unfold geocode
      rw [hqq]
      by_cases hl : (toks.filterMap id).length = 2
      · simp [hl]
      · simp [hl]

/-- Witness for C6 at the coordinate request with all parameters absent. -/
theorem geocode_clamps_and_defaults_witness :
    (buildQuery 48 11 req8).radiusKm ≤ 20 ∧
    parseRadius (.num 25) = 20 ∧
    (∀ m, geocode [] req8 ≠ GeocodeOutcome.badRequest m) :=
  ⟨(geocode_clamps_and_defaults 48 11 req8).1,
   (geocode_clamps_and_defaults 48 11 req8).2.1 25 (by norm_num),
   fun m => (geocode_clamps_and_defaults 48 11 req8).2.2.2.2.2.2 [] m (by simp [req8])⟩

/-- C8 counterexample: a geocode request whose room filter consists of one
unparsable token is answered with a 200 result (the token silently dropped),
not rejected with an invalid-query error as the claim states. -/
theorem noRooms_unparsable_not_rejected :
    req8.noRooms = some [none] ∧
    geocode [] req8 =
      GeocodeOutcome.ok
        { latitude := 48, longitude := 11, radius := 20,
          stats := StatsOutcome.insufficientData 0, deciles := [] } :=
  ⟨rfl, rfl⟩

/-- C8 amended: components of the room filter that do not parse as numbers
are silently dropped (the parsed filter keeps exactly the numeric tokens),
and the geocode handler only ever rejects a request for a missing query
text, never for an unparsable room filter. -/
theorem noRooms_dropped (store : List Listing) (req : GeocodeReq)
    (toks : List (Option ℚ)) (h : req.noRooms = some toks) :
    parseNoRooms req.noRooms = some (toks.filterMap id) ∧
    ∀ m, geocode store req = GeocodeOutcome.badRequest m → req.q = none := by
  refine ⟨by rw [h]; rfl, ?_⟩
  intro m hm
  cases hq : req.q with
  | none => rfl
  | some t =>
    unfold geocode at hm
    rw [hq] at hm
    by_cases hl : (t.filterMap id).length = 2
    · simp [hl] at hm
    · simp [hl] at hm

/-- Witness for C8 amended at the request with the single unparsable room
token. -/
theorem noRooms_dropped_witness :
    parseNoRooms req8.noRooms = some [] ∧
    ∀ m, geocode [] req8 = GeocodeOutcome.badRequest m → req8.q = none :=
  noRooms_dropped [] req8 [none] rfl

/-- Mapping a key over a list sorted descending by that key yields a list of
values sorted descending. -/
theorem sorted_ge_map_insertionSort (f : Region → ℚ) (l : List Region) :
    ((l.insertionSort fun a b => f b ≤ f a).map f).Sorted (· ≥ ·) := by
  haveI : IsTotal Region fun a b => f b ≤ f a := ⟨fun a b => le_total (f b) (f a)⟩
  haveI : IsTrans Region fun a b => f b ≤ f a := ⟨fun _ _ _ h1 h2 => le_trans h2 h1⟩
  have hs := List.sorted_insertionSort (fun a b => f b ≤ f a) l
  exact List.Pairwise.map f (fun _ _ h => h) hs

/-- C7: the ranking consists of exactly the regions flagged as eligible for
ranking, each contributing the pair of its name and the chosen indicator,
and the indicator values along the ranking are sorted descending. -/
theorem ranking_spec (cities : List Region) (p : Option String) :
    ((ranking cities p).map Prod.snd).Sorted (· ≥ ·) ∧
    (∀ pr ∈ ranking cities p, ∃ c ∈ cities, c.ranked = true ∧
        pr = (c.name, indicatorOf (parseIndicator p) c)) ∧
    (∀ c ∈ cities, c.ranked = true →
        (c.name, indicatorOf (parseIndicator p) c) ∈ ranking cities p) := by
  refine ⟨?_, ?_, ?_⟩
  · unfold ranking
    rw [List.map_map]
    exact sorted_ge_map_insertionSort (indicatorOf (parseIndicator p))
      (cities.filter fun c => c.ranked)
  · intro pr hpr
    unfold ranking at hpr
    rw [List.mem_map] at hpr
    obtain ⟨c, hc, hpr⟩ := hpr
    rw [List.mem_insertionSort, List.mem_filter] at hc
    exact ⟨c, hc.1, hc.2, hpr.symm⟩
  · intro c hc hr
    unfold ranking
    rw [List.mem_map]
    exact ⟨c, (List.mem_insertionSort _).mpr (List.mem_filter.mpr ⟨hc, hr⟩), rfl⟩

/-- Witness for C7 at the scenario with R1 (indicator 20, eligible), R2
(indicator 15, eligible) and R3 (not eligible): the ranking is exactly R1
then R2, excluding R3. -/
theorem ranking_spec_witness :
    ((ranking exRegions (some "avgPricePerSqm")).map Prod.snd).Sorted (· ≥ ·) ∧
    ranking exRegions (some "avgPricePerSqm") = [("R1", 20), ("R2", 15)] :=
  ⟨(ranking_spec exRegions (some "avgPricePerSqm")).1, by decide⟩

/-- C10: a ranking request whose indicator parameter is absent, or is not
one of avgPricePerSqm, total and inequalityIndex, produces exactly the
default ranking by avgPricePerSqm, never an error. -/
theorem ranking_indicator_default (cities : List Region) (p : Option String)
    (h : ∀ t, p = some t →
      t ≠ "avgPricePerSqm" ∧ t ≠ "total" ∧ t ≠ "inequalityIndex") :
    ranking cities p = ranking cities (some "avgPricePerSqm") := by
  have hind : parseIndicator p = Indicator.avgPricePerSqm := by
    cases p with
    | none => rfl
    | some t =>
      obtain ⟨h1, h2, h3⟩ := h t rfl
      simp [parseIndicator, h1, h2, h3]
  have hdef : parseIndicator (some "avgPricePerSqm") = Indicator.avgPricePerSqm := by
    simp [parseIndicator]
  unfold ranking
  rw [hind, hdef]

/-- Witness for C10 at an unrecognized indicator name. -/
theorem ranking_indicator_default_witness :
    ranking exRegions (some "bogus") = ranking exRegions (some "avgPricePerSqm") :=
  ranking_indicator_default exRegions (some "bogus") fun t ht => by
    injection ht with h
    subst h
    exact ⟨by decide, by decide, by decide⟩

/-- Heap cells below the original heap length are untouched by one response
step: the clone is appended past the end and the deletion hits only the
clone. -/
theorem respondCity_frame (h : List CityObj) (r i : ℕ) (hi : i < h.length) :
    (respondCity h r).1.getD i default = h.getD i default := by
  unfold respondCity deleteExcludedAt cloneDeep
  rw [List.getD_eq_getElem?_getD, List.getD_eq_getElem?_getD]
  rw [List.getElem?_set_ne (by omega : h.length ≠ i)]
  rw [List.getElem?_append_left hi]
  rw [← List.getD_eq_getElem?_getD]

/-- Heap cells below the original heap length are untouched by the whole
response mapping. -/
theorem respondCities_frame (refs : List ℕ) (h : List CityObj) (i : ℕ)
    (hi : i < h.length) :
    (respondCities h refs).1.getD i default = h.getD i default := by
  induction refs generalizing h with
  | nil => rfl
  | cons r rest ih =>
    have hlen : i < (respondCity h r).1.length := by
      simp only [respondCity, deleteExcludedAt, cloneDeep, List.length_set,
        List.length_append, List.length_singleton]
      omega
    calc (respondCities h (r :: rest)).1.getD i default
        = (respondCities (respondCity h r).1 rest).1.getD i default := rfl
      _ = (respondCity h r).1.getD i default := ih (respondCity h r).1 hlen
      _ = h.getD i default := respondCity_frame h r i hi

/-- C9: the index and search handlers delete the excluded properties
(months, neighborhoods, deciles) only from deep clones of the city records,
so every stored city object of the shared collection is unchanged, all
fields equal, after the response is built. -/
theorem index_search_preserve_store (h : List CityObj) (store : List ℕ)
    (useNb : Bool) (fz : ℕ → Bool) (off lim i : ℕ) (hi : i < h.length) :
    (indexOp h store useNb off lim).1.getD i default = h.getD i default ∧
    (searchOp h store useNb fz off lim).1.getD i default = h.getD i default :=
  ⟨respondCities_frame _ h i hi, respondCities_frame _ h i hi⟩

/-- Witness for C9 at a one-city heap whose stored record keeps its months,
neighborhoods and deciles after both handlers run. -/
theorem index_search_preserve_store_witness :
    (indexOp [cityB] [0] false 0 50).1.getD 0 default = [cityB].getD 0 default ∧
    (searchOp [cityB] [0] false (fun _ => true) 0 50).1.getD 0 default =
      [cityB].getD 0 default :=
  index_search_preserve_store [cityB] [0] false (fun _ => true) 0 50 0 (by decide)
